import Mathlib

set_option autoImplicit false

/-! Formal model of `src/test-server.py`, the Echoes RPG local preview server.

The server subclasses Python's `http.server.SimpleHTTPRequestHandler`,
overriding `end_headers` (to add CORS headers and suffix-based Content-Type
headers) and `do_OPTIONS`, and its `main` resolves a serve directory,
validates required artifacts, scans ports 8080-8089 and serves until
interrupted.  Strings are modelled with structural char-list primitives so
that every definition evaluates inside the kernel. -/

namespace EchoesRpgTestServer

/-- Test whether the char list `s` ends with `suffix` (Python's
`str.endswith`): the last `suffix.length` chars of `s` are `suffix`. -/
def endsWithL (s suffix : List Char) : Bool :=
  s.reverse.take suffix.length == suffix.reverse

/-- Python's `str.endswith` on strings. -/
def endsWith (s suffix : String) : Bool :=
  endsWithL s.data suffix.data

/-- The chars of `s` strictly before the first occurrence of `c`
(Python's `s.split(c, 1)[0]`). -/
def takeBefore (c : Char) : List Char → List Char
  | [] => []
  | x :: xs => if x = c then [] else x :: takeBefore c xs

/-- Split a char list on a separator char (Python's `s.split(c)`). -/
def splitOnChar (c : Char) : List Char → List (List Char)
  | [] => [[]]
  | x :: xs =>
    if x = c then [] :: splitOnChar c xs
    else
      match splitOnChar c xs with
      | [] => [[x]]
      | w :: ws => (x :: w) :: ws

/-- One iteration of the component loop of `posixpath.normpath` (CPython
`posixpath.py`): drop empty and `.` components; append a component unless it
is a `..` that cancels against a previous real component. -/
def normpathStep (initialSlashes : Bool) (acc : List String) (comp : String) : List String :=
  if comp = "" ∨ comp = "." then acc
  else if comp ≠ ".." ∨ ((¬ initialSlashes) ∧ acc = []) ∨ (acc ≠ [] ∧ acc.getLast? = some "..") then
    acc ++ [comp]
  else if acc ≠ [] then acc.dropLast
  else acc

/-- The component normalization of `posixpath.normpath`. -/
def normpathComps (initialSlashes : Bool) (comps : List String) : List String :=
  comps.foldl (normpathStep initialSlashes) []

/-- Whether a char list starts with `/`. -/
def startsWithSlash : List Char → Bool
  | [] => false
  | c :: _ => c = '/'

/-- `SimpleHTTPRequestHandler.translate_path` from CPython's `http.server`,
inherited by the handler: drop the query (`?`) and fragment (`#`) parts of the
raw request path, normalize with `posixpath.normpath`, split on `/`, and
starting from the serve directory append every word that is not `.` or `..`
(after splitting no word can contain `/`, so the `os.path.dirname(word)` skip
never fires on POSIX).  Percent-decoding is omitted: it happens before
normalization, and the theorems below quantify over all raw paths, so they
cover decoded paths as well.  Filesystem paths are lists of components. -/
def translate_path (root : List String) (rawPath : String) : List String :=
  let stripped := takeBefore '#' (takeBefore '?' rawPath.data)
  let words := (splitOnChar '/' stripped).map (fun w => String.mk w)
  let normed := normpathComps (startsWithSlash stripped) words
  normed.foldl (fun acc word => if word = "." ∨ word = ".." then acc else acc ++ [word]) root

/-- Join path components with `/`, as `os.path.join` does on POSIX. -/
def joinPath (comps : List String) : String :=
  String.intercalate "/" comps

/-- The three CORS headers added by `GameHTTPRequestHandler.end_headers`
(src/test-server.py lines 18-20), in send order. -/
def corsHeaders : List (String × String) :=
  [("Access-Control-Allow-Origin", "*"),
   ("Access-Control-Allow-Methods", "GET, POST, OPTIONS"),
   ("Access-Control-Allow-Headers", "*")]

/-- The suffix-based Content-Type header of `end_headers` (lines 22-28),
decided from the raw request path string `self.path`. -/
def suffixContentType (path : String) : List (String × String) :=
  if endsWith path ".wasm" then [("Content-Type", "application/wasm")]
  else if endsWith path ".js" then [("Content-Type", "application/javascript")]
  else if endsWith path ".html" then [("Content-Type", "text/html; charset=utf-8")]
  else []

/-- `GameHTTPRequestHandler.end_headers` (lines 16-30): the headers already
sent by the caller (`prior`) are followed by the three CORS headers and then
by the suffix-based Content-Type header, after which the base class flushes
them all to the wire. -/
def end_headers (path : String) (prior : List (String × String)) : List (String × String) :=
  prior ++ corsHeaders ++ suffixContentType path

/-- `SimpleHTTPRequestHandler.guess_type`: a generic extension-to-MIME lookup
(the `mimetypes` table, abstracted as `table` over the looked-up file path),
defaulting to `application/octet-stream` when the lookup knows nothing about
the path. -/
def guess_type (table : String → Option String) (path : String) : String :=
  (table path).getD "application/octet-stream"

/-- An HTTP response: status code, headers in send order, body bytes.
The `Server`, `Date`, `Content-Length` and `Last-Modified` headers the base
class also emits are not modelled; no claim concerns them and none of them
shares a name with a modelled header. -/
structure HttpResponse where
  status : Nat
  headers : List (String × String)
  body : List Nat
  deriving Repr, DecidableEq

/-- The filesystem as seen by the request handler: which component paths are
servable regular files, and their byte contents. -/
structure Fs where
  isFile : List String → Bool
  content : List String → List Nat

/-- The Content-Type of `BaseHTTPRequestHandler.send_error` pages. -/
def errorContentType : String := "text/html;charset=utf-8"

/-- Placeholder bytes for the standard HTML error page body written by
`send_error`; its exact contents are irrelevant to every claim. -/
def errorBody : List Nat := [60, 104, 116, 109, 108, 62]

/-- A GET request as handled by the inherited
`SimpleHTTPRequestHandler.do_GET`/`send_head` with the overridden
`end_headers`: translate the raw path, and either serve the file's bytes with
status 200 and the Content-Type from the generic lookup, or answer the
standard 404 error page.  Directory redirection and listing are not modelled:
`Fs.isFile` answers whether the translated path is a servable regular file.
The second component collects the filesystem paths the handler touches. -/
def do_GET (table : String → Option String) (fs : Fs) (root : List String)
    (rawPath : String) : HttpResponse × List (List String) :=
  let p := translate_path root rawPath
  if fs.isFile p then
    ({ status := 200,
       headers := end_headers rawPath [("Content-Type", guess_type table (joinPath p))],
       body := fs.content p }, [p])
  else
    ({ status := 404,
       headers := end_headers rawPath [("Content-Type", errorContentType)],
       body := errorBody }, [p])

/-- `SimpleHTTPRequestHandler.do_HEAD`: same resolution and headers as a GET,
but no body is written. -/
def do_HEAD (table : String → Option String) (fs : Fs) (root : List String)
    (rawPath : String) : HttpResponse × List (List String) :=
  let g := do_GET table fs root rawPath
  ({ status := g.1.status, headers := g.1.headers, body := [] }, g.2)

/-- `GameHTTPRequestHandler.do_OPTIONS` (lines 32-35): send status 200, then
`end_headers`; no body is written and no filesystem path is touched. -/
def do_OPTIONS (rawPath : String) : HttpResponse × List (List String) :=
  ({ status := 200, headers := end_headers rawPath [], body := [] }, [])

/-- An HTTP request method as dispatched by `BaseHTTPRequestHandler`. -/
inductive Method where
  | get
  | head
  | options
  | other (name : String)
  deriving Repr, DecidableEq

/-- Dispatch of one request: GET and HEAD are served by the inherited
`SimpleHTTPRequestHandler` machinery, OPTIONS by the overridden `do_OPTIONS`,
and a method without a `do_*` handler gets the base class's 501 error
response — every one of them emits its headers through the overridden
`end_headers`. -/
def handle (table : String → Option String) (fs : Fs) (root : List String) :
    Method → String → HttpResponse × List (List String)
  | .get, raw => do_GET table fs root raw
  | .head, raw => do_HEAD table fs root raw
  | .options, raw => do_OPTIONS raw
  | .other _, raw =>
    ({ status := 501, headers := end_headers raw [("Content-Type", errorContentType)],
       body := errorBody }, [])

/-- Outcome of constructing `socketserver.TCPServer(("", port), ...)`: either
the bind succeeds, or it raises `OSError` with the given errno. -/
inductive BindOutcome where
  | success
  | oserror (errno : Nat)
  deriving Repr, DecidableEq

/-- The errnos `main` treats as "address already in use" (line 99):
48 (macOS) and 98 (Linux). -/
def inUse (b : BindOutcome) : Prop :=
  b = .oserror 48 ∨ b = .oserror 98

instance (b : BindOutcome) : Decidable (inUse b) := by
  unfold inUse
  infer_instance

/-- Outcome of the `for port in range(PORT, PORT + 10)` loop of `main`. -/
inductive ScanResult where
  | bound (port : Nat)
  | exhausted
  | fatal (errno : Nat)
  deriving Repr, DecidableEq

/-- The port-scanning loop of `main` (lines 79-105): try each candidate port
in order; on `OSError` with errno 48 or 98 `continue` to the next port; on
any other `OSError` re-`raise` (fatal, scanning stops); on a successful bind
stop with that port.  An empty candidate list means the loop finished without
`break`, which triggers the `for`/`else` clause (exhaustion).  The second
component records the ports attempted, in order. -/
def scanPorts (bind : Nat → BindOutcome) : List Nat → ScanResult × List Nat
  | [] => (.exhausted, [])
  | p :: rest =>
    match bind p with
    | .success => (.bound p, [p])
    | .oserror e =>
      if e = 48 ∨ e = 98 then
        ((scanPorts bind rest).1, p :: (scanPorts bind rest).2)
      else
        (.fatal e, [p])

/-- The environment `main` runs in: which paths exist relative to the script's
directory (candidate serve directories such as `test-deploy`, and required
files below them such as `test-deploy/index.html`), the outcome of binding
each port, and whether the operator eventually interrupts the serving loop
with Ctrl-C (`KeyboardInterrupt` inside `serve_forever`). -/
structure Env where
  pathExists : String → Bool
  bind : Nat → BindOutcome
  interrupted : Bool

/-- What running `main` does, observed from outside: the process exit code
(`none` when the server serves forever), every line printed to stdout in
order, and the ports the scanning loop attempted. -/
structure MainOut where
  exitCode : Option Nat
  output : List String
  attempted : List Nat
  deriving Repr, DecidableEq

/-- Line 42: the starting port. -/
def PORT : Nat := 8080

/-- Line 61: the artifacts that must exist under the serve directory. -/
def required_files : List String :=
  ["index.html", "pkg/echoes_rpg.js", "pkg/echoes_rpg_bg.wasm"]

/-- The `"=" * 50` separator of the startup banner. -/
def sepLine : String := String.mk (List.replicate 50 '=')

/-- The startup banner printed after a successful bind (lines 82-90), with
the f-string and `str.format` holes filled in. -/
def banner (port : Nat) (webDir : String) : List String :=
  ["🎮 Echoes RPG Test Server",
   sepLine,
   "🌐 Server running at: http://localhost:" ++ toString port,
   "📂 Serving files from: " ++ webDir,
   "🔧 WASM and CORS headers configured",
   sepLine,
   "🎯 Open http://localhost:" ++ toString port ++ " in your browser to play!",
   "⏹️  Press Ctrl+C to stop the server",
   ""]

/-- Lines 78-105 of `main`, after validation has passed: scan the candidate
ports.  On a successful bind print the banner and serve; a
`KeyboardInterrupt` during `serve_forever` prints the shutdown notice and
`break`s out, after which `main` returns and the process exits with code 0;
without an interrupt the server serves forever.  If the loop finishes without
`break` (all candidates in use) the `else` clause prints the diagnostic and
calls `sys.exit(1)`.  A re-`raise`d `OSError` is uncaught, so the interpreter
terminates the process with exit code 1 before any banner is printed. -/
def servePhase (env : Env) (webDir dirLine : String) : MainOut :=
  match scanPorts env.bind (List.range' PORT 10) with
  | (.bound p, att) =>
    if env.interrupted then
      { exitCode := some 0,
        output := dirLine :: (banner p webDir ++ ["\n🛑 Server stopped by user"]),
        attempted := att }
    else
      { exitCode := none, output := dirLine :: banner p webDir, attempted := att }
  | (.exhausted, att) =>
    { exitCode := some 1,
      output := [dirLine,
                 "❌ Error: Could not find an available port starting from " ++ toString PORT],
      attempted := att }
  | (.fatal _, att) =>
    { exitCode := some 1, output := [dirLine], attempted := att }

/-- Lines 60-105 of `main`, once the serve directory is chosen and its status
line printed: collect the required files that do not exist under it; if any
are missing, print each one plus the remediation line and `sys.exit(1)`;
otherwise proceed (silently) to the port scan. -/
def mainWithDir (env : Env) (webDir dirLine : String) : MainOut :=
  let missing := required_files.filter (fun f => !(env.pathExists (webDir ++ "/" ++ f)))
  if missing.isEmpty then
    servePhase env webDir dirLine
  else
    { exitCode := some 1,
      output := dirLine :: "❌ Error: Missing required files:" ::
        (missing.map (fun f => "   - " ++ f) ++
         ["\n   Please ensure you have built the WASM package correctly."]),
      attempted := [] }

/-- `main` (lines 41-105): pick `test-deploy` if it exists, else `dist` if it
exists, else print the no-built-files diagnostic and `sys.exit(1)`; then
validate artifacts and serve.  The `os.chdir(web_dir)` side effect is
represented by passing the directory down explicitly. -/
def main (env : Env) : MainOut :=
  if env.pathExists "test-deploy" then
    mainWithDir env "test-deploy" "📁 Serving from test-deploy directory"
  else if env.pathExists "dist" then
    mainWithDir env "dist" "📁 Serving from dist directory"
  else
    { exitCode := some 1,
      output := ["❌ Error: No built files found!",
                 "   Please run \x27wasm-pack build --target web --out-dir pkg --no-typescript\x27 first",
                 "   Then create a deployment directory with index.html and pkg/"],
      attempted := [] }

/-! Helper lemmas. -/

/-- Taking a positive number of elements preserves the head. -/
theorem head?_take_of_pos {α : Type} (l : List α) (n : Nat) (hn : 0 < n) :
    (l.take n).head? = l.head? := by
  cases l with
  | nil => simp
  | cons a t =>
    cases n with
    | zero => omega
    | succ n => simp

/-- A string ending in a nonempty suffix has the suffix's last char as its
own last char. -/
theorem endsWith_reverse_head (s suffix : String) (h : endsWith s suffix = true)
    (hne : suffix.data ≠ []) :
    s.data.reverse.head? = suffix.data.reverse.head? := by
  unfold endsWith endsWithL at h
  have heq : s.data.reverse.take suffix.data.length = suffix.data.reverse := eq_of_beq h
  have hlen : 0 < suffix.data.length := List.length_pos.mpr hne
  calc s.data.reverse.head? = (s.data.reverse.take suffix.data.length).head? :=
        (head?_take_of_pos _ _ hlen).symm
    _ = suffix.data.reverse.head? := by rw [heq]

/-- A string cannot end in two suffixes whose last chars differ. -/
theorem endsWith_false_of_head_ne (s a b : String) (ha : endsWith s a = true)
    (hane : a.data ≠ []) (hbne : b.data ≠ [])
    (hne : a.data.reverse.head? ≠ b.data.reverse.head?) :
    endsWith s b = false := by
  by_contra hb
  rw [Bool.not_eq_false] at hb
  have h1 := endsWith_reverse_head s a ha hane
  have h2 := endsWith_reverse_head s b hb hbne
  exact hne (h1.symm.trans h2)

/-- Suffix header for a `.wasm` raw path. -/
theorem suffixContentType_wasm (p : String) (h : endsWith p ".wasm" = true) :
    suffixContentType p = [("Content-Type", "application/wasm")] := by
  simp [suffixContentType, h]

/-- Suffix header for a `.js` raw path. -/
theorem suffixContentType_js (p : String) (h : endsWith p ".js" = true) :
    suffixContentType p = [("Content-Type", "application/javascript")] := by
  have hw := endsWith_false_of_head_ne p ".js" ".wasm" h (by decide) (by decide) (by decide)
  simp [suffixContentType, h, hw]

/-- Suffix header for a `.html` raw path. -/
theorem suffixContentType_html (p : String) (h : endsWith p ".html" = true) :
    suffixContentType p = [("Content-Type", "text/html; charset=utf-8")] := by
  have hw := endsWith_false_of_head_ne p ".html" ".wasm" h (by decide) (by decide) (by decide)
  have hj := endsWith_false_of_head_ne p ".html" ".js" h (by decide) (by decide) (by decide)
  simp [suffixContentType, h, hw, hj]

/-- No suffix header for other raw paths. -/
theorem suffixContentType_none (p : String) (hw : endsWith p ".wasm" = false)
    (hj : endsWith p ".js" = false) (hh : endsWith p ".html" = false) :
    suffixContentType p = [] := by
  simp [suffixContentType, hw, hj, hh]

/-- Every suffix-based header is named `Content-Type`. -/
theorem suffixContentType_name (path : String) (q : String × String)
    (h : q ∈ suffixContentType path) : q.1 = "Content-Type" := by
  unfold suffixContentType at h
  split_ifs at h <;> simp_all

/-- The CORS headers are always among the headers `end_headers` sends. -/
theorem cors_subset_end_headers (path : String) (prior : List (String × String)) :
    corsHeaders ⊆ end_headers path prior := by
  intro x hx
  simp only [end_headers, List.append_assoc, List.mem_append]
  exact Or.inr (Or.inl hx)

/-- When the caller only sent Content-Type headers, any header with another
name comes from the CORS block. -/
theorem end_headers_cors_value (path : String) (prior : List (String × String))
    (hp : ∀ q ∈ prior, q.1 = "Content-Type") (n v : String)
    (hn : n ≠ "Content-Type") (hmem : (n, v) ∈ end_headers path prior) :
    (n, v) ∈ corsHeaders := by
  simp only [end_headers, List.append_assoc, List.mem_append] at hmem
  rcases hmem with h | h | h
  · exact absurd (hp _ h) hn
  · exact h
  · exact absurd (suffixContentType_name path _ h) hn

/-- Any `Access-Control-Allow-Origin` header in `corsHeaders` has value `*`. -/
theorem corsHeaders_origin (v : String)
    (h : ("Access-Control-Allow-Origin", v) ∈ corsHeaders) : v = "*" := by
  simp only [corsHeaders, List.mem_cons, List.not_mem_nil, or_false, Prod.mk.injEq] at h
  rcases h with ⟨_, hv⟩ | ⟨hn, _⟩ | ⟨hn, _⟩
  · exact hv
  · exact absurd hn (by decide)
  · exact absurd hn (by decide)

/-- Any `Access-Control-Allow-Methods` header in `corsHeaders` has the exact
value `GET, POST, OPTIONS`. -/
theorem corsHeaders_methods (v : String)
    (h : ("Access-Control-Allow-Methods", v) ∈ corsHeaders) : v = "GET, POST, OPTIONS" := by
  simp only [corsHeaders, List.mem_cons, List.not_mem_nil, or_false, Prod.mk.injEq] at h
  rcases h with ⟨hn, _⟩ | ⟨_, hv⟩ | ⟨hn, _⟩
  · exact absurd hn (by decide)
  · exact hv
  · exact absurd hn (by decide)

/-- Any `Access-Control-Allow-Headers` header in `corsHeaders` has value `*`. -/
theorem corsHeaders_headers (v : String)
    (h : ("Access-Control-Allow-Headers", v) ∈ corsHeaders) : v = "*" := by
  simp only [corsHeaders, List.mem_cons, List.not_mem_nil, or_false, Prod.mk.injEq] at h
  rcases h with ⟨hn, _⟩ | ⟨hn, _⟩ | ⟨_, hv⟩
  · exact absurd hn (by decide)
  · exact absurd hn (by decide)
  · exact hv

/-- The headers of any GET response. -/
theorem do_GET_headers (table : String → Option String) (fs : Fs) (root : List String)
    (raw : String) :
    (do_GET table fs root raw).1.headers =
      end_headers raw [("Content-Type",
        if fs.isFile (translate_path root raw) = true then
          guess_type table (joinPath (translate_path root raw))
        else errorContentType)] := by
  unfold do_GET
  by_cases h : fs.isFile (translate_path root raw) = true <;> simp [h]

/-- A GET touches exactly the translated path. -/
theorem do_GET_accesses (table : String → Option String) (fs : Fs) (root : List String)
    (raw : String) :
    (do_GET table fs root raw).2 = [translate_path root raw] := by
  unfold do_GET
  by_cases h : fs.isFile (translate_path root raw) = true <;> simp [h]

/-- A GET of an existing file succeeds with the file's bytes. -/
theorem do_GET_success (table : String → Option String) (fs : Fs) (root : List String)
    (raw : String) (h : fs.isFile (translate_path root raw) = true) :
    (do_GET table fs root raw).1.status = 200 ∧
    (do_GET table fs root raw).1.body = fs.content (translate_path root raw) := by
  unfold do_GET
  simp [h]

/-- A GET of a missing file is a 404. -/
theorem do_GET_notFound (table : String → Option String) (fs : Fs) (root : List String)
    (raw : String) (h : fs.isFile (translate_path root raw) = false) :
    (do_GET table fs root raw).1.status = 404 := by
  unfold do_GET
  simp [h]

/-- A successful GET can only have served an existing translated path. -/
theorem do_GET_status_200 (table : String → Option String) (fs : Fs) (root : List String)
    (raw : String) (h : (do_GET table fs root raw).1.status = 200) :
    fs.isFile (translate_path root raw) = true := by
  by_contra hc
  rw [Bool.not_eq_true] at hc
  rw [do_GET_notFound table fs root raw hc] at h
  omega

/-- Every response of the dispatcher is shaped `prior ++ CORS ++ suffix`,
with `prior` made of Content-Type headers only. -/
theorem handle_headers_shape (table : String → Option String) (fs : Fs) (root : List String)
    (m : Method) (raw : String) :
    ∃ prior, (∀ q ∈ prior, q.1 = "Content-Type") ∧
      (handle table fs root m raw).1.headers = end_headers raw prior := by
  cases m with
  | get =>
    refine ⟨[("Content-Type",
      if fs.isFile (translate_path root raw) = true then
        guess_type table (joinPath (translate_path root raw))
      else errorContentType)], ?_, ?_⟩
    · simp
    · exact do_GET_headers table fs root raw
  | head =>
    refine ⟨[("Content-Type",
      if fs.isFile (translate_path root raw) = true then
        guess_type table (joinPath (translate_path root raw))
      else errorContentType)], ?_, ?_⟩
    · simp
    · exact do_GET_headers table fs root raw
  | options => exact ⟨[], by simp, rfl⟩
  | other name => exact ⟨[("Content-Type", errorContentType)], by simp, rfl⟩

/-- Folding path words onto an accumulator only ever appends, so the
accumulator stays a prefix of the result. -/
theorem foldl_skip_append_prefix (l : List String) (acc : List String) :
    acc <+: l.foldl (fun a w => if w = "." ∨ w = ".." then a else a ++ [w]) acc := by
  induction l generalizing acc with
  | nil => exact List.prefix_rfl
  | cons w l ih =>
    simp only [List.foldl_cons]
    by_cases h : w = "." ∨ w = ".."
    · rw [if_pos h]
      exact ih acc
    · rw [if_neg h]
      exact (List.prefix_append acc [w]).trans (ih (acc ++ [w]))

/-- The translated path always extends the serve root. -/
theorem translate_path_prefix (root : List String) (raw : String) :
    root <+: translate_path root raw := by
  unfold translate_path
  exact foldl_skip_append_prefix _ root

/-- A scan stops immediately on a successful bind. -/
theorem scanPorts_cons_success (bind : Nat → BindOutcome) (p : Nat) (rest : List Nat)
    (h : bind p = .success) :
    scanPorts bind (p :: rest) = (.bound p, [p]) := by
  simp [scanPorts, h]

/-- A scan skips over an address-in-use port. -/
theorem scanPorts_cons_inUse (bind : Nat → BindOutcome) (p : Nat) (rest : List Nat)
    (e : Nat) (h : bind p = .oserror e) (he : e = 48 ∨ e = 98) :
    scanPorts bind (p :: rest) = ((scanPorts bind rest).1, p :: (scanPorts bind rest).2) := by
  simp only [scanPorts, h]
  rw [if_pos he]

/-- A scan aborts on any other bind error. -/
theorem scanPorts_cons_fatal (bind : Nat → BindOutcome) (p : Nat) (rest : List Nat)
    (e : Nat) (h : bind p = .oserror e) (he : ¬(e = 48 ∨ e = 98)) :
    scanPorts bind (p :: rest) = (.fatal e, [p]) := by
  simp only [scanPorts, h]
  rw [if_neg he]

/-- When the first `n` candidates are in use and candidate `n` binds, the scan
stops at port `start + n` having attempted exactly the first `n + 1` ports. -/
theorem scanPorts_success (bind : Nat → BindOutcome) (start k n : Nat) (hn : n < k)
    (hbusy : ∀ i, i < n → inUse (bind (start + i)))
    (hfree : bind (start + n) = .success) :
    scanPorts bind (List.range' start k) = (.bound (start + n), List.range' start (n + 1)) := by
  induction n generalizing start k with
  | zero =>
    cases k with
    | zero => omega
    | succ k =>
      rw [List.range'_succ]
      rw [scanPorts_cons_success bind start _ (by simpa using hfree)]
      simp
  | succ n ih =>
    cases k with
    | zero => omega
    | succ k =>
      rw [List.range'_succ]
      have hb0 : inUse (bind start) := by simpa using hbusy 0 (Nat.succ_pos n)
      obtain ⟨e, he, hbe⟩ : ∃ e, (e = 48 ∨ e = 98) ∧ bind start = .oserror e := by
        rcases hb0 with h | h
        · exact ⟨48, Or.inl rfl, h⟩
        · exact ⟨98, Or.inr rfl, h⟩
      rw [scanPorts_cons_inUse bind start _ e hbe he]
      rw [ih (start + 1) k (by omega)
            (fun i hi => by
              have hstep := hbusy (i + 1) (by omega)
              have harith : start + 1 + i = start + (i + 1) := by omega
              rw [harith]
              exact hstep)
            (by
              have harith : start + 1 + n = start + (n + 1) := by omega
              rw [harith]
              exact hfree)]
      simp [List.range'_succ]
      omega

/-- When every candidate is in use the scan exhausts the whole list. -/
theorem scanPorts_exhausted (bind : Nat → BindOutcome) (start k : Nat)
    (hbusy : ∀ i, i < k → inUse (bind (start + i))) :
    scanPorts bind (List.range' start k) = (.exhausted, List.range' start k) := by
  induction k generalizing start with
  | zero => simp [scanPorts]
  | succ k ih =>
    rw [List.range'_succ]
    have hb0 : inUse (bind start) := by simpa using hbusy 0 (Nat.succ_pos k)
    obtain ⟨e, he, hbe⟩ : ∃ e, (e = 48 ∨ e = 98) ∧ bind start = .oserror e := by
      rcases hb0 with h | h
      · exact ⟨48, Or.inl rfl, h⟩
      · exact ⟨98, Or.inr rfl, h⟩
    rw [scanPorts_cons_inUse bind start _ e hbe he]
    rw [ih (start + 1)
          (fun i hi => by
            have hstep := hbusy (i + 1) (by omega)
            have harith : start + 1 + i = start + (i + 1) := by omega
            rw [harith]
            exact hstep)]

/-- When the first `n` candidates are in use and candidate `n` fails with an
errno that is not address-in-use, the scan aborts there. -/
theorem scanPorts_fatal (bind : Nat → BindOutcome) (start k n e : Nat) (hn : n < k)
    (hbusy : ∀ i, i < n → inUse (bind (start + i)))
    (hbind : bind (start + n) = .oserror e) (he : ¬(e = 48 ∨ e = 98)) :
    scanPorts bind (List.range' start k) = (.fatal e, List.range' start (n + 1)) := by
  induction n generalizing start k with
  | zero =>
    cases k with
    | zero => omega
    | succ k =>
      rw [List.range'_succ]
      rw [scanPorts_cons_fatal bind start _ e (by simpa using hbind) he]
      simp
  | succ n ih =>
    cases k with
    | zero => omega
    | succ k =>
      rw [List.range'_succ]
      have hb0 : inUse (bind start) := by simpa using hbusy 0 (Nat.succ_pos n)
      obtain ⟨e0, he0, hbe0⟩ : ∃ e0, (e0 = 48 ∨ e0 = 98) ∧ bind start = .oserror e0 := by
        rcases hb0 with h | h
        · exact ⟨48, Or.inl rfl, h⟩
        · exact ⟨98, Or.inr rfl, h⟩
      rw [scanPorts_cons_inUse bind start _ e0 hbe0 he0]
      rw [ih (start + 1) k (by omega)
            (fun i hi => by
              have hstep := hbusy (i + 1) (by omega)
              have harith : start + 1 + i = start + (i + 1) := by omega
              rw [harith]
              exact hstep)
            (by
              have harith : start + 1 + n = start + (n + 1) := by omega
              rw [harith]
              exact hbind)]
      simp [List.range'_succ]

/-- `main` with `test-deploy` present. -/
theorem main_testDeploy (env : Env) (h : env.pathExists "test-deploy" = true) :
    main env = mainWithDir env "test-deploy" "📁 Serving from test-deploy directory" := by
  simp [main, h]

/-- `main` with only `dist` present. -/
theorem main_dist (env : Env) (h1 : env.pathExists "test-deploy" = false)
    (h2 : env.pathExists "dist" = true) :
    main env = mainWithDir env "dist" "📁 Serving from dist directory" := by
  simp [main, h1, h2]

/-- `main` with neither serve directory present. -/
theorem main_noDir (env : Env) (h1 : env.pathExists "test-deploy" = false)
    (h2 : env.pathExists "dist" = false) :
    main env =
      { exitCode := some 1,
        output := ["❌ Error: No built files found!",
                   "   Please run \x27wasm-pack build --target web --out-dir pkg --no-typescript\x27 first",
                   "   Then create a deployment directory with index.html and pkg/"],
        attempted := [] } := by
  simp [main, h1, h2]

/-- When no required file is missing, the validator is silent and `main`
continues with the serve phase. -/
theorem mainWithDir_ok (env : Env) (webDir dirLine : String)
    (h : required_files.filter (fun f => !(env.pathExists (webDir ++ "/" ++ f))) = []) :
    mainWithDir env webDir dirLine = servePhase env webDir dirLine := by
  simp [mainWithDir, h]

/-- When some required file is missing, the validator prints each missing
path and exits with code 1. -/
theorem mainWithDir_missing_out (env : Env) (webDir dirLine : String)
    (hne : required_files.filter (fun f => !(env.pathExists (webDir ++ "/" ++ f))) ≠ []) :
    mainWithDir env webDir dirLine =
      { exitCode := some 1,
        output := dirLine :: "❌ Error: Missing required files:" ::
          ((required_files.filter (fun f => !(env.pathExists (webDir ++ "/" ++ f)))).map
              (fun f => "   - " ++ f) ++
           ["\n   Please ensure you have built the WASM package correctly."]),
        attempted := [] } := by
  cases hml : required_files.filter (fun f => !(env.pathExists (webDir ++ "/" ++ f))) with
  | nil => exact absurd hml hne
  | cons a l => simp [mainWithDir, hml]

/-- Serve phase on a successful bind followed by Ctrl-C. -/
theorem servePhase_bound_interrupted (env : Env) (webDir dirLine : String) (p : Nat)
    (att : List Nat) (hscan : scanPorts env.bind (List.range' PORT 10) = (.bound p, att))
    (hint : env.interrupted = true) :
    servePhase env webDir dirLine =
      { exitCode := some 0,
        output := dirLine :: (banner p webDir ++ ["\n🛑 Server stopped by user"]),
        attempted := att } := by
  simp [servePhase, hscan, hint]

/-- Serve phase on a successful bind with no interrupt: serving forever. -/
theorem servePhase_bound_serving (env : Env) (webDir dirLine : String) (p : Nat)
    (att : List Nat) (hscan : scanPorts env.bind (List.range' PORT 10) = (.bound p, att))
    (hint : env.interrupted = false) :
    servePhase env webDir dirLine =
      { exitCode := none, output := dirLine :: banner p webDir, attempted := att } := by
  simp [servePhase, hscan, hint]

/-- Serve phase when all candidate ports were in use. -/
theorem servePhase_exhausted (env : Env) (webDir dirLine : String) (att : List Nat)
    (hscan : scanPorts env.bind (List.range' PORT 10) = (.exhausted, att)) :
    servePhase env webDir dirLine =
      { exitCode := some 1,
        output := [dirLine,
                   "❌ Error: Could not find an available port starting from " ++ toString PORT],
        attempted := att } := by
  simp [servePhase, hscan]

/-- Serve phase on a fatal bind error. -/
theorem servePhase_fatal (env : Env) (webDir dirLine : String) (e : Nat) (att : List Nat)
    (hscan : scanPorts env.bind (List.range' PORT 10) = (.fatal e, att)) :
    servePhase env webDir dirLine =
      { exitCode := some 1, output := [dirLine], attempted := att } := by
  simp [servePhase, hscan]

/-- The status line of the chosen directory opens the output in every branch
after the resolver. -/
theorem mainWithDir_dirLine_mem (env : Env) (webDir dirLine : String) :
    dirLine ∈ (mainWithDir env webDir dirLine).output := by
  by_cases hm : required_files.filter (fun f => !(env.pathExists (webDir ++ "/" ++ f))) = []
  · rw [mainWithDir_ok env webDir dirLine hm]
    rcases hscan : scanPorts env.bind (List.range' PORT 10) with ⟨res, att⟩
    cases res with
    | bound p =>
      by_cases hint : env.interrupted = true
      · rw [servePhase_bound_interrupted env webDir dirLine p att hscan hint]
        simp
      · rw [servePhase_bound_serving env webDir dirLine p att hscan
            (by rw [Bool.not_eq_true] at hint; exact hint)]
        simp
    | exhausted =>
      rw [servePhase_exhausted env webDir dirLine att hscan]
      simp
    | fatal e =>
      rw [servePhase_fatal env webDir dirLine e att hscan]
      simp
  · rw [mainWithDir_missing_out env webDir dirLine hm]
    simp

/-- A generic lookup whose octet-stream default equals `application/wasm` is
impossible, so such an answer can only come from the table itself. -/
theorem getD_octet_eq_wasm (o : Option String)
    (h : o.getD "application/octet-stream" = "application/wasm") :
    o = some "application/wasm" := by
  cases o with
  | none => exact absurd h (by decide)
  | some v => simpa using congrArg some h

/-! Claim theorems. -/

/-- C1: for a successful GET, a raw path ending in `.wasm` carries
`Content-Type: application/wasm`, one ending in `.js` carries
`application/javascript`, one ending in `.html` carries
`text/html; charset=utf-8`, and for any other path the content type is the
generic extension-to-MIME lookup's answer, which defaults to
`application/octet-stream` when the lookup does not know the path. -/
theorem C1_content_type_mapping (table : String → Option String) (fs : Fs)
    (root : List String) (raw : String)
    (hok : ((do_GET table fs root raw).1).status = 200) :
    (endsWith raw ".wasm" = true →
      ("Content-Type", "application/wasm") ∈ ((do_GET table fs root raw).1).headers)
  ∧ (endsWith raw ".js" = true →
      ("Content-Type", "application/javascript") ∈ ((do_GET table fs root raw).1).headers)
  ∧ (endsWith raw ".html" = true →
      ("Content-Type", "text/html; charset=utf-8") ∈ ((do_GET table fs root raw).1).headers)
  ∧ (endsWith raw ".wasm" = false → endsWith raw ".js" = false → endsWith raw ".html" = false →
      ("Content-Type", guess_type table (joinPath (translate_path root raw)))
          ∈ ((do_GET table fs root raw).1).headers
      ∧ (table (joinPath (translate_path root raw)) = none →
          ("Content-Type", "application/octet-stream")
            ∈ ((do_GET table fs root raw).1).headers)) := by
  have hfile := do_GET_status_200 table fs root raw hok
  have hh := do_GET_headers table fs root raw
  rw [if_pos hfile] at hh
  refine ⟨?_, ?_, ?_, ?_⟩
  · intro hw
    rw [hh]
    simp [end_headers, suffixContentType_wasm raw hw]
  · intro hj
    rw [hh]
    simp [end_headers, suffixContentType_js raw hj]
  · intro hhtml
    rw [hh]
    simp [end_headers, suffixContentType_html raw hhtml]
  · intro hw hj hhtml
    constructor
    · rw [hh]
      simp [end_headers]
    · intro htab
      rw [hh]
      simp [end_headers, guess_type, htab]

/-- A filesystem with a single servable file `web/game.wasm`. -/
def fsWasm : Fs := { isFile := fun p => p == ["web", "game.wasm"], content := fun _ => [0] }

/-- Witness for C1: a successful GET of `/game.wasm` from root `web` under a
lookup table that knows nothing carries `Content-Type: application/wasm`. -/
theorem C1_content_type_mapping_witness :
    ("Content-Type", "application/wasm") ∈
      ((do_GET (fun _ => none) fsWasm ["web"] "/game.wasm").1).headers :=
  (C1_content_type_mapping (fun _ => none) fsWasm ["web"] "/game.wasm" (by decide)).1 (by decide)

/-- C2: every response, for any method, any raw path, existing file or not,
carries the three CORS headers, and any header bearing one of the three CORS
names carries exactly the specified value. -/
theorem C2_cors_on_every_response (table : String → Option String) (fs : Fs)
    (root : List String) (m : Method) (raw : String) :
    corsHeaders ⊆ (handle table fs root m raw).1.headers
  ∧ (∀ v, ("Access-Control-Allow-Origin", v) ∈ (handle table fs root m raw).1.headers →
      v = "*")
  ∧ (∀ v, ("Access-Control-Allow-Methods", v) ∈ (handle table fs root m raw).1.headers →
      v = "GET, POST, OPTIONS")
  ∧ (∀ v, ("Access-Control-Allow-Headers", v) ∈ (handle table fs root m raw).1.headers →
      v = "*") := by
  obtain ⟨prior, hp, hh⟩ := handle_headers_shape table fs root m raw
  rw [hh]
  refine ⟨cors_subset_end_headers raw prior, ?_, ?_, ?_⟩
  · intro v hv
    exact corsHeaders_origin v (end_headers_cors_value raw prior hp _ v (by decide) hv)
  · intro v hv
    exact corsHeaders_methods v (end_headers_cors_value raw prior hp _ v (by decide) hv)
  · intro v hv
    exact corsHeaders_headers v (end_headers_cors_value raw prior hp _ v (by decide) hv)

/-- Witness for C2 at a concrete request. -/
theorem C2_cors_on_every_response_witness :
    corsHeaders ⊆ ((handle (fun _ => none) fsWasm ["web"] .get "/missing.txt").1).headers :=
  (C2_cors_on_every_response (fun _ => none) fsWasm ["web"] .get "/missing.txt").1

/-- C3: the handler never reaches a file outside the serve root: every
filesystem path a GET touches extends the root, a successful GET's body is
the content of the translated path (which extends the root), and when the
translated path is not a servable file the response is a 404. -/
theorem C3_no_directory_traversal (table : String → Option String) (fs : Fs)
    (root : List String) (raw : String) :
    (∀ p ∈ (do_GET table fs root raw).2, root <+: p)
  ∧ ((do_GET table fs root raw).1.status = 200 →
      (do_GET table fs root raw).1.body = fs.content (translate_path root raw)
      ∧ root <+: translate_path root raw)
  ∧ (fs.isFile (translate_path root raw) = false →
      (do_GET table fs root raw).1.status = 404) := by
  refine ⟨?_, ?_, ?_⟩
  · intro p hp
    rw [do_GET_accesses] at hp
    simp only [List.mem_singleton] at hp
    subst hp
    exact translate_path_prefix root raw
  · intro h200
    have hfile := do_GET_status_200 table fs root raw h200
    exact ⟨(do_GET_success table fs root raw hfile).2, translate_path_prefix root raw⟩
  · exact do_GET_notFound table fs root raw

/-- Witness for C3: a traversal request's translated path stays under the
root. -/
theorem C3_no_directory_traversal_witness :
    ["web"] <+: translate_path ["web"] "/../../etc/passwd" :=
  (C3_no_directory_traversal (fun _ => none) fsWasm ["web"] "/../../etc/passwd").1
    (translate_path ["web"] "/../../etc/passwd") (by decide)

/-- C5: an OPTIONS request is answered with status 200 and an empty body, the
response carries the three CORS headers, and the handler touches no
filesystem path. -/
theorem C5_options_preflight (raw : String) :
    (do_OPTIONS raw).1.status = 200
  ∧ (do_OPTIONS raw).1.body = []
  ∧ corsHeaders ⊆ (do_OPTIONS raw).1.headers
  ∧ (do_OPTIONS raw).2 = [] :=
  ⟨rfl, rfl, cors_subset_end_headers raw [], rfl⟩

/-- Witness for C5 at a concrete request. -/
theorem C5_options_preflight_witness :
    (do_OPTIONS "/index.html").1.status = 200
  ∧ (do_OPTIONS "/index.html").1.body = []
  ∧ corsHeaders ⊆ (do_OPTIONS "/index.html").1.headers
  ∧ (do_OPTIONS "/index.html").2 = [] :=
  C5_options_preflight "/index.html"

/-- A suffix-based header (whichever of the three branches fired) appears in
the OPTIONS response and in any GET response for that raw path. -/
theorem suffix_header_in_responses (table : String → Option String) (fs : Fs)
    (root : List String) (raw ct : String)
    (hs : suffixContentType raw = [("Content-Type", ct)]) :
    ("Content-Type", ct) ∈ (do_OPTIONS raw).1.headers
    ∧ ("Content-Type", ct) ∈ ((do_GET table fs root raw).1).headers := by
  constructor
  · show ("Content-Type", ct) ∈ end_headers raw []
    simp [end_headers, hs]
  · rw [do_GET_headers table fs root raw]
    simp [end_headers, hs]

/-- A successful GET of a raw path on which a suffix branch fired carries
exactly two Content-Type headers: the base handler's and the appended one. -/
theorem countP_two_of_suffix (table : String → Option String) (fs : Fs)
    (root : List String) (raw ct : String)
    (hs : suffixContentType raw = [("Content-Type", ct)])
    (h200 : ((do_GET table fs root raw).1).status = 200) :
    ((do_GET table fs root raw).1).headers.countP (fun q => q.1 == "Content-Type") = 2 := by
  have hfile := do_GET_status_200 table fs root raw h200
  rw [do_GET_headers table fs root raw, if_pos hfile]
  simp only [end_headers, hs, List.countP_append]
  have h0 : List.countP (fun (q : String × String) => q.1 == "Content-Type") corsHeaders = 0 := by
    decide
  rw [h0]
  simp [List.countP_cons]

/-- C10 (amended): the suffix-based Content-Type is decided from the raw
request path string and its header is appended by `end_headers` on every
response — 404s, OPTIONS and 501s included — after any Content-Type the base
handler already sent, so a successful GET of a `.wasm`, `.js` or `.html` path
carries two Content-Type headers; a raw path not ending in
`.wasm`/`.js`/`.html` (such as `/app.wasm?v=1`) gets no suffix-based header
from `end_headers`, and a successful GET of it carries an `application/wasm`
Content-Type iff the generic lookup maps its translated path to
`application/wasm`. -/
theorem C10_raw_path_suffix_headers (table : String → Option String) (fs : Fs)
    (root : List String) (m : Method) (raw : String) :
    (∃ prior, (∀ q ∈ prior, q.1 = "Content-Type") ∧
      (handle table fs root m raw).1.headers = prior ++ corsHeaders ++ suffixContentType raw)
  ∧ (endsWith raw ".wasm" = true →
      ("Content-Type", "application/wasm") ∈ (do_OPTIONS raw).1.headers
      ∧ ("Content-Type", "application/wasm") ∈ ((do_GET table fs root raw).1).headers)
  ∧ (endsWith raw ".js" = true →
      ("Content-Type", "application/javascript") ∈ (do_OPTIONS raw).1.headers
      ∧ ("Content-Type", "application/javascript") ∈ ((do_GET table fs root raw).1).headers)
  ∧ (endsWith raw ".html" = true →
      ("Content-Type", "text/html; charset=utf-8") ∈ (do_OPTIONS raw).1.headers
      ∧ ("Content-Type", "text/html; charset=utf-8") ∈ ((do_GET table fs root raw).1).headers)
  ∧ ((endsWith raw ".wasm" = true ∨ endsWith raw ".js" = true ∨ endsWith raw ".html" = true) →
      ((do_GET table fs root raw).1).status = 200 →
      ((do_GET table fs root raw).1).headers.countP (fun q => q.1 == "Content-Type") = 2)
  ∧ (endsWith raw ".wasm" = false → endsWith raw ".js" = false → endsWith raw ".html" = false →
      suffixContentType raw = []
      ∧ (((do_GET table fs root raw).1).status = 200 →
          (("Content-Type", "application/wasm") ∈ ((do_GET table fs root raw).1).headers ↔
            table (joinPath (translate_path root raw)) = some "application/wasm"))) := by
  refine ⟨?_, ?_, ?_, ?_, ?_, ?_⟩
  · obtain ⟨prior, hp, hh⟩ := handle_headers_shape table fs root m raw
    exact ⟨prior, hp, by rw [hh]; rfl⟩
  · intro hw
    exact suffix_header_in_responses table fs root raw _ (suffixContentType_wasm raw hw)
  · intro hj
    exact suffix_header_in_responses table fs root raw _ (suffixContentType_js raw hj)
  · intro hhtml
    exact suffix_header_in_responses table fs root raw _ (suffixContentType_html raw hhtml)
  · intro hsome h200
    rcases hsome with hw | hj | hhtml
    · exact countP_two_of_suffix table fs root raw _ (suffixContentType_wasm raw hw) h200
    · exact countP_two_of_suffix table fs root raw _ (suffixContentType_js raw hj) h200
    · exact countP_two_of_suffix table fs root raw _ (suffixContentType_html raw hhtml) h200
  · intro hw hj hhtml
    have hs0 := suffixContentType_none raw hw hj hhtml
    refine ⟨hs0, ?_⟩
    intro h200
    have hfile := do_GET_status_200 table fs root raw h200
    rw [do_GET_headers table fs root raw, if_pos hfile]
    constructor
    · intro hmem
      simp only [end_headers, hs0, List.append_nil] at hmem
      rcases List.mem_append.mp hmem with hmem | hmem
      · rw [List.mem_singleton, Prod.mk.injEq] at hmem
        exact getD_octet_eq_wasm _ hmem.2.symm
      · exact absurd hmem (by decide)
    · intro htab
      simp [end_headers, guess_type, htab]

/-- Witness for C10's amended statement at a concrete request. -/
theorem C10_raw_path_suffix_headers_witness :
    ("Content-Type", "application/wasm") ∈ (do_OPTIONS "/game.wasm").1.headers
    ∧ ("Content-Type", "application/wasm") ∈
        ((do_GET (fun _ => none) fsWasm ["web"] "/game.wasm").1).headers :=
  (C10_raw_path_suffix_headers (fun _ => none) fsWasm ["web"] .options "/game.wasm").2.1
    (by decide)

/-- The generic lookup of CPython's `mimetypes` since 3.9 maps any `.wasm`
path to `application/wasm`. -/
def wasmAwareTable : String → Option String :=
  fun p => if endsWith p ".wasm" then some "application/wasm" else none

/-- A filesystem with the single servable file `web/app.wasm`. -/
def fsApp : Fs := { isFile := fun p => p == ["web", "app.wasm"], content := fun _ => [0] }

/-- Counterexample to C10 as stated: under a generic lookup that knows
`.wasm` (as modern CPython's does), the successful GET of `/app.wasm?v=1`
does carry an `application/wasm` Content-Type header — from the base
handler's lookup applied to the translated path — even though the raw path
does not end in `.wasm`, refuting "receives no application/wasm header at
all". -/
theorem C10_counterexample :
    ((do_GET wasmAwareTable fsApp ["web"] "/app.wasm?v=1").1).status = 200
    ∧ ("Content-Type", "application/wasm")
        ∈ ((do_GET wasmAwareTable fsApp ["web"] "/app.wasm?v=1").1).headers
    ∧ endsWith "/app.wasm?v=1" ".wasm" = false := by
  decide

/-- C4: with a valid serve directory, the binder tries 8080, 8081, … in
increasing order and stops at the first successful bind — if the first `n`
candidates are address-in-use and port `8080 + n` binds, exactly ports
8080…8080+n are attempted and the startup banner reports the bound port —
and when all ten candidates are in use the process prints the diagnostic
naming the starting port and exits with code 1. -/
theorem C4_port_binder (env : Env)
    (hdir : env.pathExists "test-deploy" = true)
    (hfiles : required_files.filter (fun f => !(env.pathExists ("test-deploy" ++ "/" ++ f))) = []) :
    (∀ n, n < 10 → (∀ i, i < n → inUse (env.bind (PORT + i))) →
      env.bind (PORT + n) = .success →
      (main env).attempted = List.range' PORT (n + 1)
      ∧ ("🌐 Server running at: http://localhost:" ++ toString (PORT + n)) ∈ (main env).output)
  ∧ ((∀ i, i < 10 → inUse (env.bind (PORT + i))) →
      (main env).exitCode = some 1
      ∧ ("❌ Error: Could not find an available port starting from " ++ toString PORT)
          ∈ (main env).output) := by
  rw [main_testDeploy env hdir, mainWithDir_ok env _ _ hfiles]
  constructor
  · intro n hn hbusy hfree
    have hscan := scanPorts_success env.bind PORT 10 n hn hbusy hfree
    by_cases hint : env.interrupted = true
    · rw [servePhase_bound_interrupted env _ _ _ _ hscan hint]
      exact ⟨rfl, by simp [banner]⟩
    · rw [servePhase_bound_serving env _ _ _ _ hscan
          (by rw [Bool.not_eq_true] at hint; exact hint)]
      exact ⟨rfl, by simp [banner]⟩
  · intro hbusy
    have hscan := scanPorts_exhausted env.bind PORT 10 hbusy
    rw [servePhase_exhausted env _ _ _ hscan]
    exact ⟨rfl, by simp⟩

/-- Environment for the port-binder witness: `test-deploy` complete, port
8080 in use, every later port free, Ctrl-C eventually pressed. -/
def envPortW : Env :=
  { pathExists := fun s => s == "test-deploy" || s == "test-deploy/index.html" ||
      s == "test-deploy/pkg/echoes_rpg.js" || s == "test-deploy/pkg/echoes_rpg_bg.wasm",
    bind := fun p => if p == 8080 then .oserror 98 else .success,
    interrupted := true }

/-- Witness for C4: with 8080 taken, the server attempts exactly 8080 and
8081 and the banner reports 8081. -/
theorem C4_port_binder_witness :
    (main envPortW).attempted = List.range' PORT 2
    ∧ ("🌐 Server running at: http://localhost:" ++ toString (PORT + 1))
        ∈ (main envPortW).output :=
  (C4_port_binder envPortW (by decide) (by decide)).1 1 (by decide)
    (fun i hi => by
      have h0 : i = 0 := by omega
      rw [h0]
      decide)
    (by decide)

/-- C6: the directory resolver prefers `test-deploy`, then `dist`, emitting a
status line naming the chosen directory; when neither exists the process
prints the missing-artifacts diagnostic with build guidance and exits with
code 1. -/
theorem C6_directory_resolver (env : Env) :
    (env.pathExists "test-deploy" = true →
      "📁 Serving from test-deploy directory" ∈ (main env).output)
  ∧ (env.pathExists "test-deploy" = false → env.pathExists "dist" = true →
      "📁 Serving from dist directory" ∈ (main env).output)
  ∧ (env.pathExists "test-deploy" = false → env.pathExists "dist" = false →
      (main env).exitCode = some 1
      ∧ (main env).output =
          ["❌ Error: No built files found!",
           "   Please run \x27wasm-pack build --target web --out-dir pkg --no-typescript\x27 first",
           "   Then create a deployment directory with index.html and pkg/"]) := by
  refine ⟨?_, ?_, ?_⟩
  · intro h
    rw [main_testDeploy env h]
    exact mainWithDir_dirLine_mem env _ _
  · intro h1 h2
    rw [main_dist env h1 h2]
    exact mainWithDir_dirLine_mem env _ _
  · intro h1 h2
    rw [main_noDir env h1 h2]
    exact ⟨rfl, rfl⟩

/-- Environment with no build directory at all. -/
def envEmptyW : Env :=
  { pathExists := fun _ => false, bind := fun _ => .success, interrupted := false }

/-- Witness for C6: with neither directory present the process exits 1 with
the missing-artifacts diagnostic. -/
theorem C6_directory_resolver_witness :
    (main envEmptyW).exitCode = some 1
    ∧ (main envEmptyW).output =
        ["❌ Error: No built files found!",
         "   Please run \x27wasm-pack build --target web --out-dir pkg --no-typescript\x27 first",
         "   Then create a deployment directory with index.html and pkg/"] :=
  (C6_directory_resolver envEmptyW).2.2 rfl rfl

/-- C7: the artifact validator checks exactly the three required files; when
some are missing it prints the error header, each missing path individually
(`pkg/echoes_rpg_bg.wasm` among them whenever that artifact is absent) and
the remediation line, then exits with code 1; when none are missing it
proceeds silently, adding nothing beyond the serve phase's output. -/
theorem C7_artifact_validator (env : Env)
    (hdir : env.pathExists "test-deploy" = true) :
    required_files = ["index.html", "pkg/echoes_rpg.js", "pkg/echoes_rpg_bg.wasm"]
  ∧ (required_files.filter (fun f => !(env.pathExists ("test-deploy" ++ "/" ++ f))) ≠ [] →
      (main env).exitCode = some 1
      ∧ "❌ Error: Missing required files:" ∈ (main env).output
      ∧ (∀ f ∈ required_files.filter (fun f => !(env.pathExists ("test-deploy" ++ "/" ++ f))),
          ("   - " ++ f) ∈ (main env).output)
      ∧ "\n   Please ensure you have built the WASM package correctly." ∈ (main env).output
      ∧ (env.pathExists "test-deploy/pkg/echoes_rpg_bg.wasm" = false →
          ("   - pkg/echoes_rpg_bg.wasm") ∈ (main env).output))
  ∧ (required_files.filter (fun f => !(env.pathExists ("test-deploy" ++ "/" ++ f))) = [] →
      main env = servePhase env "test-deploy" "📁 Serving from test-deploy directory") := by
  refine ⟨rfl, ?_, ?_⟩
  · intro hne
    rw [main_testDeploy env hdir, mainWithDir_missing_out env _ _ hne]
    refine ⟨rfl, by simp, ?_, by simp, ?_⟩
    · intro f hf
      simp only [List.mem_cons, List.mem_append, List.mem_map, List.mem_singleton]
      right; right; left
      exact ⟨f, hf, rfl⟩
    · intro hwasm
      have hs : ("test-deploy" ++ "/" ++ "pkg/echoes_rpg_bg.wasm" : String) =
          "test-deploy/pkg/echoes_rpg_bg.wasm" := by decide
      have hf : "pkg/echoes_rpg_bg.wasm" ∈
          required_files.filter (fun f => !(env.pathExists ("test-deploy" ++ "/" ++ f))) := by
        rw [List.mem_filter]
        refine ⟨by decide, ?_⟩
        rw [hs, hwasm]
        rfl
      simp only [List.mem_cons, List.mem_append, List.mem_map, List.mem_singleton]
      right; right; left
      exact ⟨_, hf, rfl⟩
  · intro hz
    rw [main_testDeploy env hdir, mainWithDir_ok env _ _ hz]

/-- Environment whose `test-deploy` lacks `pkg/echoes_rpg_bg.wasm`. -/
def envMissingW : Env :=
  { pathExists := fun s => s == "test-deploy" || s == "test-deploy/index.html" ||
      s == "test-deploy/pkg/echoes_rpg.js",
    bind := fun _ => .success, interrupted := false }

/-- Witness for C7: the missing `.wasm` artifact is listed and the process
exits 1. -/
theorem C7_artifact_validator_witness :
    (main envMissingW).exitCode = some 1
    ∧ ("   - pkg/echoes_rpg_bg.wasm") ∈ (main envMissingW).output := by
  have h := (C7_artifact_validator envMissingW (by decide)).2.1 (by decide)
  exact ⟨h.1, h.2.2.2.2 (by decide)⟩

/-- C8: a binding failure other than address-in-use aborts the scan at once:
the loop outcome is fatal with that errno, only the ports up to and including
the failing one were attempted, and the uncaught error terminates the process
with exit code 1 before any banner is printed. -/
theorem C8_fatal_bind_error (env : Env) (n e : Nat)
    (hdir : env.pathExists "test-deploy" = true)
    (hfiles : required_files.filter (fun f => !(env.pathExists ("test-deploy" ++ "/" ++ f))) = [])
    (hn : n < 10)
    (hbusy : ∀ i, i < n → inUse (env.bind (PORT + i)))
    (hfatal : env.bind (PORT + n) = .oserror e)
    (he : ¬(e = 48 ∨ e = 98)) :
    (scanPorts env.bind (List.range' PORT 10)).1 = .fatal e
  ∧ (main env).attempted = List.range' PORT (n + 1)
  ∧ (main env).exitCode = some 1 := by
  have hscan := scanPorts_fatal env.bind PORT 10 n e hn hbusy hfatal he
  rw [main_testDeploy env hdir, mainWithDir_ok env _ _ hfiles,
      servePhase_fatal env _ _ e _ hscan]
  exact ⟨by rw [hscan], rfl, rfl⟩

/-- Environment where binding always fails with `EACCES` (errno 13). -/
def envFatalW : Env :=
  { pathExists := fun s => s == "test-deploy" || s == "test-deploy/index.html" ||
      s == "test-deploy/pkg/echoes_rpg.js" || s == "test-deploy/pkg/echoes_rpg_bg.wasm",
    bind := fun _ => .oserror 13,
    interrupted := false }

/-- Witness for C8: a permission-denied errno on the very first port stops
the scan after one attempt and the process exits 1. -/
theorem C8_fatal_bind_error_witness :
    (scanPorts envFatalW.bind (List.range' PORT 10)).1 = .fatal 13
    ∧ (main envFatalW).attempted = List.range' PORT 1
    ∧ (main envFatalW).exitCode = some 1 :=
  C8_fatal_bind_error envFatalW 0 13 (by decide) (by decide) (by decide)
    (fun i hi => absurd hi (by omega)) (by decide) (by decide)

/-- C9: exit codes — once a directory is chosen and validated, a successful
bind followed by a Ctrl-C interrupt prints the shutdown notice and exits with
status 0, while every startup failure (no serve directory, missing required
files, all ports in use, fatal bind error) exits with status 1. -/
theorem C9_exit_codes (env : Env) :
    (∀ webDir dirLine p,
      main env = mainWithDir env webDir dirLine →
      required_files.filter (fun f => !(env.pathExists (webDir ++ "/" ++ f))) = [] →
      (scanPorts env.bind (List.range' PORT 10)).1 = .bound p →
      env.interrupted = true →
      (main env).exitCode = some 0 ∧ "\n🛑 Server stopped by user" ∈ (main env).output)
  ∧ (env.pathExists "test-deploy" = false → env.pathExists "dist" = false →
      (main env).exitCode = some 1)
  ∧ (∀ webDir dirLine,
      main env = mainWithDir env webDir dirLine →
      required_files.filter (fun f => !(env.pathExists (webDir ++ "/" ++ f))) ≠ [] →
      (main env).exitCode = some 1)
  ∧ (∀ webDir dirLine,
      main env = mainWithDir env webDir dirLine →
      required_files.filter (fun f => !(env.pathExists (webDir ++ "/" ++ f))) = [] →
      ((scanPorts env.bind (List.range' PORT 10)).1 = .exhausted →
        (main env).exitCode = some 1)
      ∧ (∀ e, (scanPorts env.bind (List.range' PORT 10)).1 = .fatal e →
        (main env).exitCode = some 1)) := by
  refine ⟨?_, ?_, ?_, ?_⟩
  · intro webDir dirLine p hmain hfe hscan hint
    rcases hpair : scanPorts env.bind (List.range' PORT 10) with ⟨res, att⟩
    rw [hpair] at hscan
    have hres : res = .bound p := hscan
    subst hres
    rw [hmain, mainWithDir_ok env _ _ hfe,
        servePhase_bound_interrupted env _ _ p att hpair hint]
    exact ⟨rfl, by simp⟩
  · intro h1 h2
    rw [main_noDir env h1 h2]
  · intro webDir dirLine hmain hne
    rw [hmain, mainWithDir_missing_out env _ _ hne]
  · intro webDir dirLine hmain hfe
    constructor
    · intro hscan
      rcases hpair : scanPorts env.bind (List.range' PORT 10) with ⟨res, att⟩
      rw [hpair] at hscan
      have hres : res = .exhausted := hscan
      subst hres
      rw [hmain, mainWithDir_ok env _ _ hfe, servePhase_exhausted env _ _ att hpair]
    · intro e hscan
      rcases hpair : scanPorts env.bind (List.range' PORT 10) with ⟨res, att⟩
      rw [hpair] at hscan
      have hres : res = .fatal e := hscan
      subst hres
      rw [hmain, mainWithDir_ok env _ _ hfe, servePhase_fatal env _ _ e att hpair]

/-- Witness for C9: in the port-binder witness environment the interrupted
server exits 0 after printing the shutdown notice. -/
theorem C9_exit_codes_witness :
    (main envPortW).exitCode = some 0
    ∧ "\n🛑 Server stopped by user" ∈ (main envPortW).output :=
  (C9_exit_codes envPortW).1 "test-deploy" "📁 Serving from test-deploy directory" 8081
    (main_testDeploy envPortW (by decide)) (by decide) (by decide) rfl

end EchoesRpgTestServer
